import Mathlib

/-!
Verification of the news-feed PUB/SUB server (`src/`): message codec
(`src/common/protocol.py`), news store (`src/server/news_storage.py`),
subscription registry (`src/server/subscription_manager.py`) and the
server dispatch/broadcast engine (`src/server/server.py`).

The embedding works at the level of decoded JSON records: the Python code
frames every message as `json.dumps(obj) + "\n"` and decodes with
`json.loads`, so a wire record is modelled as `Option Json`
(`none` = the text failed JSON decoding, i.e. `json.JSONDecodeError`;
`some v` = the text decoded to the JSON value `v`).  Connections
(Python `socket.socket` handles) are opaque and modelled as `Nat`.
Timestamps (`datetime.now().isoformat()`) are an external input, passed
in as a `Nat` parameter `now`.  File persistence (`_save_to_file`,
`_load_from_file`) is I/O that never influences the in-memory state
transition, and is not modelled.
-/

/-- Python `str.lower()` on a string value: per-character lowercasing
(the category strings involved are ASCII). -/
def pyLower (s : String) : String := ⟨s.data.map Char.toLower⟩

/-- Lexicographic comparison of two strings by code point, the order
Python `sorted` uses on strings. -/
def charListLe : List Char → List Char → Bool
  | [], _ => true
  | _ :: _, [] => false
  | a :: as, b :: bs => if a = b then charListLe as bs else decide (a < b)

/-- Python `a <= b` on strings. -/
def pyStrLe (a b : String) : Bool := charListLe a.data b.data

/-- Insertion of an element into a sorted list, for `insertionSortBy`. -/
def orderedInsertBy {α : Type} (le : α → α → Bool) (a : α) : List α → List α
  | [] => [a]
  | b :: l => if le a b then a :: b :: l else b :: orderedInsertBy le a l

/-- Python `sorted`, as a plain insertion sort. -/
def insertionSortBy {α : Type} (le : α → α → Bool) : List α → List α
  | [] => []
  | a :: l => orderedInsertBy le a (insertionSortBy le l)

/-- A JSON value, as produced by Python `json.loads`.  Objects keep their
fields as an association list (Python dicts cannot hold duplicate keys). -/
inductive Json where
  | null : Json
  | bool (b : Bool) : Json
  | num (n : Int) : Json
  | str (s : String) : Json
  | arr (elems : List Json) : Json
  | obj (fields : List (String × Json)) : Json

namespace Json

/-- First value bound to key `k` in the field list of an object (Python dict
lookup; a dict built by `json.loads` has unique keys). -/
def lookupField : List (String × Json) → String → Option Json
  | [], _ => none
  | (k', v) :: rest, k => if k' = k then some v else lookupField rest k

/-- Python `d.get(k)` on a value `d`: returns `Except.error` when `d` is
not a dict (Python raises `AttributeError`), otherwise the field value or
Python `None` (here `Option.none`) when the key is absent. -/
def pyGet : Json → String → Except String (Option Json)
  | obj fields, k => Except.ok (lookupField fields k)
  | _, _ => Except.error "AttributeError: no attribute get"

/-- Python `d.get(k, default)`. -/
def pyGetD (j : Json) (k : String) (dflt : Json) : Except String Json := do
  match ← j.pyGet k with
  | some v => pure v
  | none => pure dflt

/-- Python `v.lower()`: only defined on strings, otherwise
`AttributeError`.  Per-character lowercasing (ASCII categories). -/
def lowerStr : Json → Except String String
  | str s => Except.ok (pyLower s)
  | _ => Except.error "AttributeError: no attribute lower"

/-- Python truthiness of a JSON value (`data or \x7b\x7d` in
`Message.create`). -/
def pyFalsy : Json → Bool
  | null => true
  | bool b => !b
  | num n => n == 0
  | str s => s == ""
  | arr elems => elems.isEmpty
  | obj fields => fields.isEmpty

/-- Python `str(v)` as used in f-string interpolation.  Only the cases the
server actually interpolates into its diagnostic strings matter for the
claims (a string type tag); container renderings are abbreviated. -/
def pyShow : Json → String
  | null => "None"
  | bool true => "True"
  | bool false => "False"
  | num n => toString n
  | str s => s
  | arr _ => "a list"
  | obj _ => "a dict"

/-- Python `str(msg.get _)` where the lookup may have returned `None`. -/
def pyShowOpt : Option Json → String
  | none => "None"
  | some v => v.pyShow

/-- Python equality `v == t` between an arbitrary value (possibly `None`)
and a string literal, as in the `if msg_type == MessageType...` dispatch
chain: true exactly when the value is that string. -/
def pyEqStr : Option Json → String → Bool
  | some (Json.str s), t => s == t
  | _, _ => false

end Json

/-! ## `src/common/protocol.py` -/

/- The wire type tags of `class MessageType`. -/
namespace MessageType

def SUBSCRIBE : String := "INSCREVER"
def UNSUBSCRIBE : String := "REMOVER"
def LIST_CATEGORIES : String := "LISTAR"
def HISTORY : String := "HISTORICO"
def DISCONNECT : String := "SAIR"
def PUBLISH : String := "PUBLICAR"
def NEWS_UPDATE : String := "NOTICIA"
def NEWS_HISTORY : String := "HISTORICO_LISTA"
def SUCCESS : String := "SUCESSO"
def ERROR : String := "ERRO"
def CATEGORIES_LIST : String := "CATEGORIAS"

end MessageType

namespace Message

/-- Python `Message.create(msg_type, data)` builds
`json.dumps({"type": msg_type, "data": data or \x7b\x7d}) + "\n"`; at the
decoded-JSON level this is the two-field object below.  Python callers
that omit `data` pass `Json.null` here (Python default `data = None`);
`data or \x7b\x7d` replaces any falsy value by the empty dict. -/
def create (msg_type : String) (data : Json) : Json :=
  Json.obj [("type", Json.str msg_type),
            ("data", if data.pyFalsy then Json.obj [] else data)]

/-- Python `Message.parse(raw_message)`: `json.loads` of the stripped record.
`none` models a `json.JSONDecodeError`, answered with the fixed error
record; any successfully decoded JSON value is returned unchanged. -/
def parse (raw : Option Json) : Json :=
  match raw with
  | none => Json.obj [("type", Json.str MessageType.ERROR),
                      ("data", Json.obj [("message", Json.str "Formato inválido")])]
  | some v => v

/-- Python `Message.news_update(title, summary, category)`.  The server passes
`data.get(...)` results straight through, so title and summary may be any
JSON value. -/
def news_update (title summary : Json) (category : String) : Json :=
  create MessageType.NEWS_UPDATE
    (Json.obj [("title", title), ("summary", summary), ("category", Json.str category)])

/-- Python `Message.success(message)`. -/
def success (message : String) : Json :=
  create MessageType.SUCCESS (Json.obj [("message", Json.str message)])

/-- Python `Message.error(message)`. -/
def error (message : String) : Json :=
  create MessageType.ERROR (Json.obj [("message", Json.str message)])

/-- Python `Message.categories_list(categories)`. -/
def categories_list (categories : List String) : Json :=
  create MessageType.CATEGORIES_LIST
    (Json.obj [("categories", Json.arr (categories.map Json.str))])

end Message

/-! ## `src/common/config.py` -/

def DEFAULT_CATEGORIES : List String :=
  ["todas", "tecnologia", "esportes", "cultura", "politica", "economia",
   "entretenimento", "musica", "saude", "ciencia", "educacao", "moda",
   "gastronomia", "viagem", "negocios", "meio-ambiente"]

def MAX_NEWS_HISTORY : Nat := 100

/-! ## `src/server/news_storage.py` -/

/-- Python list slice `l[-limit:]`: the last `limit` elements — except
that `limit = 0` means index `-0 == 0`, so the WHOLE list is returned. -/
def pySliceLast {α : Type} (l : List α) (limit : Nat) : List α :=
  if limit = 0 then l else l.drop (l.length - limit)

/-- One stored news item: the dict built in `NewsStorage.add_news`.
Title and lead are whatever JSON values the server extracted from the
publish frame; the category is the lowercased string; the timestamp is
an external input. -/
structure News where
  id : Nat
  title : Json
  lead : Json
  category : String
  timestamp : Nat

/-- In-memory state of `class NewsStorage`: just the ordered item list
(the file handle and lock carry no observable state). -/
structure NewsStorage where
  news_list : List News

namespace NewsStorage

/-- Python `NewsStorage.add_news(title, lead, category)`: builds the item
with `id = len(news_list) + 1`, lowercases the category, appends, then
trims to the last `MAX_NEWS_HISTORY` items when over the cap.  Returns
the new storage state together with the stored item (Python mutates in
place and returns the item). -/
def add_news (s : NewsStorage) (title lead : Json) (category : String)
    (now : Nat) : NewsStorage × News :=
  let news : News :=
    { id := s.news_list.length + 1
      title := title
      lead := lead
      category := pyLower category
      timestamp := now }
  let appended := s.news_list ++ [news]
  let trimmed :=
    if appended.length > MAX_NEWS_HISTORY then pySliceLast appended MAX_NEWS_HISTORY
    else appended
  ({ news_list := trimmed }, news)

/-- Python `NewsStorage.get_news_by_category(category, limit)`: the last
`limit` items whose category equals the lowercased argument. -/
def get_news_by_category (s : NewsStorage) (category : String)
    (limit : Nat) : List News :=
  pySliceLast (s.news_list.filter (fun n => n.category = pyLower category)) limit

/-- Python `NewsStorage.get_all_news(limit)`: the last `limit` items. -/
def get_all_news (s : NewsStorage) (limit : Nat) : List News :=
  pySliceLast s.news_list limit

/-- Python `NewsStorage.get_news_count()`. -/
def get_news_count (s : NewsStorage) : Nat :=
  s.news_list.length

/-- Python `NewsStorage.remove_news_by_ids(news_ids)`: keeps the items
whose id is not requested, then rebuilds `removed_ids` by scanning the
KEPT list (`for news in self.news_list` runs after the reassignment), and
reports as not found every requested id outside `removed_ids`.  Returns
(new state, removed count, ids reported not found). -/
def remove_news_by_ids (s : NewsStorage) (news_ids : List Nat) :
    NewsStorage × Nat × List Nat :=
  let initial_count := s.news_list.length
  let kept := s.news_list.filter (fun n => n.id ∉ news_ids)
  let removed_ids := (kept.filter (fun n => n.id ∈ news_ids)).map News.id
  let not_found := news_ids.filter (fun i => i ∉ removed_ids)
  let removed_count := initial_count - kept.length
  ({ news_list := kept }, removed_count, not_found)

end NewsStorage


/-! ## `src/server/subscription_manager.py` -/

/-- State of `class SubscriptionManager`.  Python sets are modelled as
duplicate-free lists (`set.add` = `List.insert`, `set.discard` =
`List.erase`); reachable states keep them duplicate-free.  The Python
`subscriptions` dict is keyed by exactly the available categories from
construction onward and is only ever read through those keys or through
`dict.get(k, set())`, so it is modelled as a total function that is empty
off the available set.  Key presence in the `client_subscriptions` dict is
observable (unsubscribe distinguishes a missing entry from an empty one),
so it is modelled with `Option`. -/
structure SubscriptionManager where
  available_categories : List String
  subscriptions : String → List Nat
  client_subscriptions : Nat → Option (List String)

namespace SubscriptionManager

/-- Python `SubscriptionManager.__init__(available_categories)`:
`set(cat.lower() for cat in available_categories)`; every category
starts with no subscribers and no client has an entry. -/
def init (available_categories : List String) : SubscriptionManager :=
  { available_categories := (available_categories.map pyLower).dedup
    subscriptions := fun _ => []
    client_subscriptions := fun _ => none }

/-- Python `SubscriptionManager.subscribe(client_socket, category)`.
Mirrors the source order: reject unknown categories; otherwise add the
client to the subscriber set of the category FIRST, create an entry for the client
if missing, then either reject an already-present category (the
subscriber-set add has already happened) or record it.  Returns
(new state, success flag, message). -/
def subscribe (m : SubscriptionManager) (client_socket : Nat)
    (category0 : String) : SubscriptionManager × Bool × String :=
  let category := pyLower category0
  if category ∉ m.available_categories then
    (m, false, "Categoria \x27" ++ category ++ "\x27 não existe")
  else
    let subs' := fun k =>
      if k = category then (m.subscriptions k).insert client_socket
      else m.subscriptions k
    let entry := match m.client_subscriptions client_socket with
      | none => ([] : List String)
      | some cats => cats
    if category ∈ entry then
      ({ m with
          subscriptions := subs'
          client_subscriptions := fun c =>
            if c = client_socket then some entry else m.client_subscriptions c },
       false, "Já inscrito em \x27" ++ category ++ "\x27")
    else
      ({ m with
          subscriptions := subs'
          client_subscriptions := fun c =>
            if c = client_socket then some (entry.insert category)
            else m.client_subscriptions c },
       true, "Inscrito em \x27" ++ category ++ "\x27 com sucesso")

/-- Python `SubscriptionManager.unsubscribe(client_socket, category)`:
fails when the client has no entry or the category is not in it;
otherwise discards the client from the subscriber set of the category and
the category from the entry of the client. -/
def unsubscribe (m : SubscriptionManager) (client_socket : Nat)
    (category0 : String) : SubscriptionManager × Bool × String :=
  let category := pyLower category0
  match m.client_subscriptions client_socket with
  | none => (m, false, "Cliente não tem assinaturas")
  | some cats =>
    if category ∉ cats then
      (m, false, "Não está inscrito em \x27" ++ category ++ "\x27")
    else
      ({ m with
          subscriptions := fun k =>
            if k = category then (m.subscriptions k).erase client_socket
            else m.subscriptions k
          client_subscriptions := fun c =>
            if c = client_socket then some (cats.erase category)
            else m.client_subscriptions c },
       true, "Removido de \x27" ++ category ++ "\x27 com sucesso")

/-- Python `SubscriptionManager.get_subscribers(category)`: a copy of the
subscriber set of the lowercased category (`dict.get(k, set())`). -/
def get_subscribers (m : SubscriptionManager) (category : String) : List Nat :=
  m.subscriptions (pyLower category)

/-- Python `SubscriptionManager.get_client_subscriptions(client_socket)`:
a copy of the category set of the client, empty when the client has no entry. -/
def get_client_subscriptions (m : SubscriptionManager)
    (client_socket : Nat) : List String :=
  match m.client_subscriptions client_socket with
  | none => []
  | some cats => cats

/-- Python `SubscriptionManager.remove_client(client_socket)`: when the
client has an entry, discard it from the subscriber set of every category
in that entry and delete the entry; otherwise do nothing. -/
def remove_client (m : SubscriptionManager) (client_socket : Nat) :
    SubscriptionManager :=
  match m.client_subscriptions client_socket with
  | none => m
  | some cats =>
    { m with
        subscriptions := fun k =>
          if k ∈ cats then (m.subscriptions k).erase client_socket
          else m.subscriptions k
        client_subscriptions := fun c =>
          if c = client_socket then none else m.client_subscriptions c }

/-- Python `SubscriptionManager.get_available_categories()`:
`sorted(list(available_categories))`. -/
def get_available_categories (m : SubscriptionManager) : List String :=
  insertionSortBy pyStrLe m.available_categories

/-- Registry states reachable from construction through completed
operations (the three mutating operations of the class). -/
inductive Reachable : SubscriptionManager → Prop where
  | init (available_categories : List String) :
      Reachable (init available_categories)
  | subscribe (m : SubscriptionManager) (c : Nat) (k : String) :
      Reachable m → Reachable (subscribe m c k).1
  | unsubscribe (m : SubscriptionManager) (c : Nat) (k : String) :
      Reachable m → Reachable (unsubscribe m c k).1
  | remove_client (m : SubscriptionManager) (c : Nat) :
      Reachable m → Reachable (remove_client m c)

/-- The lists standing in for Python sets are duplicate-free. -/
def WF (m : SubscriptionManager) : Prop :=
  (∀ k, (m.subscriptions k).Nodup) ∧
  (∀ c cats, m.client_subscriptions c = some cats → cats.Nodup)

/-- The bidirectional-index invariant of the registry, over its two
internal maps: a connection is in the subscriber set of a category exactly
when that category is in the entry of that connection. -/
def Invariant (m : SubscriptionManager) : Prop :=
  ∀ (c : Nat) (k : String),
    c ∈ m.subscriptions k ↔ k ∈ m.get_client_subscriptions c

end SubscriptionManager

/-! ## `src/server/server.py` -/

/-- Observable transport actions of the server, in program order.
`sendall` either succeeds (`send`) or raises because the peer is gone
(`sendFailed`); `close` is an explicit socket close. -/
inductive Event where
  | send (client : Nat) (frame : Json) : Event
  | sendFailed (client : Nat) : Event
  | close (client : Nat) : Event

/-- Mutable state of `class NewsServer` touched by message dispatch: the
two managers, the live-connection set (a Python set, as a list) and the
publish counter. -/
structure ServerState where
  subscription_manager : SubscriptionManager
  news_storage : NewsStorage
  clients : List Nat
  news_published : Nat

/-- The transport model: `dead` is the set of connections whose
`sendall` raises (peer reset / broken pipe).  `sendTo` models one
`sendall` attempt: Python `_send_to_client` swallows the failure. -/
def sendTo (dead : List Nat) (client : Nat) (frame : Json) : List Event :=
  if client ∈ dead then [Event.sendFailed client] else [Event.send client frame]

namespace NewsServer

/-- Loop body of the teardown pass at the end of
`NewsServer._broadcast_news`: deregister one failed connection and drop
it from the live-connection set. -/
def remove_failed_client (st : ServerState) (c : Nat) : ServerState :=
  { st with
      subscription_manager := st.subscription_manager.remove_client c
      clients := st.clients.erase c }

/-- Python `NewsServer._broadcast_news(title, summary, category)`:
snapshot the subscriber set, attempt one `sendall` per subscriber
(collecting the failed ones instead of aborting), then remove every
failed connection from the registry and the live-connection set.
Python iterates the snapshot set in unspecified order; here it is
iterated in the stored list order. -/
def broadcast_news (dead : List Nat) (st : ServerState)
    (title summary : Json) (category : String) : ServerState × List Event :=
  let subscribers := st.subscription_manager.get_subscribers category
  let news_msg := Message.news_update title summary category
  let events := subscribers.map (fun c =>
    if c ∈ dead then Event.sendFailed c else Event.send c news_msg)
  let failed_clients := subscribers.filter (fun c => c ∈ dead)
  let st' := failed_clients.foldl remove_failed_client st
  (st', events)

/-- Python `NewsServer._process_message(client_socket, client_id,
raw_message)`: parse, then dispatch on `msg.get("type")`.  A Python
`AttributeError` (calling `.get` or `.lower()` on a non-dict/non-string)
escapes `_process_message`; that is the `Except.error` case.  The result
carries the new server state and the transport events in program order. -/
def process_message (dead : List Nat) (st : ServerState) (client : Nat)
    (raw : Option Json) (now : Nat) :
    Except String (ServerState × List Event) := do
  let msg := Message.parse raw
  let msg_type ← msg.pyGet "type"
  let data ← msg.pyGetD "data" (Json.obj [])
  if Json.pyEqStr msg_type MessageType.SUBSCRIBE then
    let category ← (← data.pyGetD "category" (Json.str "")).lowerStr
    let (m', ok, message) := st.subscription_manager.subscribe client category
    let response := if ok then Message.success message else Message.error message
    pure ({ st with subscription_manager := m' }, sendTo dead client response)
  else if Json.pyEqStr msg_type MessageType.UNSUBSCRIBE then
    let category ← (← data.pyGetD "category" (Json.str "")).lowerStr
    let (m', ok, message) := st.subscription_manager.unsubscribe client category
    let response := if ok then Message.success message else Message.error message
    pure ({ st with subscription_manager := m' }, sendTo dead client response)
  else if Json.pyEqStr msg_type MessageType.LIST_CATEGORIES then
    let categories := st.subscription_manager.get_available_categories
    let subscriptions := st.subscription_manager.get_client_subscriptions client
    let evs1 := sendTo dead client (Message.categories_list categories)
    let evs2 :=
      if subscriptions.isEmpty then []
      else sendTo dead client (Message.success
        ("Suas assinaturas: " ++ ", ".intercalate (insertionSortBy pyStrLe subscriptions)))
    pure (st, evs1 ++ evs2)
  else if Json.pyEqStr msg_type MessageType.PUBLISH then
    let title ← data.pyGetD "title" (Json.str "")
    let summary ← data.pyGetD "summary" (Json.str "")
    let category ← (← data.pyGetD "category" (Json.str "")).lowerStr
    if category ∈ st.subscription_manager.get_available_categories then
      let r := st.news_storage.add_news title summary category now
      let st1 := { st with
        news_storage := r.1
        news_published := st.news_published + 1 }
      let b := broadcast_news dead st1 title summary category
      let response := Message.success
        ("Notícia publicada com sucesso (ID: " ++ toString r.2.id ++ ")")
      pure (b.1, b.2 ++ sendTo dead client response)
    else
      pure (st, sendTo dead client
        (Message.error ("Categoria \x27" ++ category ++ "\x27 inválida")))
  else if Json.pyEqStr msg_type MessageType.DISCONNECT then
    pure (st, sendTo dead client (Message.success "Desconectado com sucesso")
              ++ [Event.close client])
  else
    pure (st, sendTo dead client
      (Message.error ("Comando \x27" ++ Json.pyShowOpt msg_type ++ "\x27 não reconhecido")))

/-- Python `NewsServer._disconnect_client`: deregister the connection
from the registry, drop it from the live set, close the socket. -/
def disconnect_client (st : ServerState) (client : Nat) : ServerState :=
  { st with
      subscription_manager := st.subscription_manager.remove_client client
      clients := st.clients.erase client }

/-- One iteration of the `_handle_client` receive loop at the point a
complete raw record is dispatched: a fault escaping `_process_message`
is caught by the `except`/`finally` of `_handle_client`, which tears the
connection down; otherwise the loop continues.  The final `Bool` is
whether the connection is still open afterwards. -/
def handle_one (dead : List Nat) (st : ServerState) (client : Nat)
    (raw : Option Json) (now : Nat) : ServerState × List Event × Bool :=
  match process_message dead st client raw now with
  | Except.ok (st', evs) => (st', evs, true)
  | Except.error _ => (disconnect_client st client, [Event.close client], false)

end NewsServer

theorem mem_orderedInsertBy {α : Type} (le : α → α → Bool) (a x : α) (l : List α) :
    x ∈ orderedInsertBy le a l ↔ x = a ∨ x ∈ l := by
  induction l with
  | nil => simp [orderedInsertBy]
  | cons b t ih =>
    by_cases h : le a b
    · simp [orderedInsertBy, h]
    · simp [orderedInsertBy, h, ih]
      tauto

theorem mem_insertionSortBy {α : Type} (le : α → α → Bool) (x : α) (l : List α) :
    x ∈ insertionSortBy le l ↔ x ∈ l := by
  induction l with
  | nil => simp [insertionSortBy]
  | cons a t ih => simp [insertionSortBy, mem_orderedInsertBy, ih]

namespace SubscriptionManager

theorem mem_get_available_categories (m : SubscriptionManager) (k : String) :
    k ∈ m.get_available_categories ↔ k ∈ m.available_categories := by
  simp [get_available_categories, mem_insertionSortBy]

theorem wF_init (cats : List String) : WF (init cats) := by
  constructor
  · intro k; simp [init]
  · intro c cs h; simp [init] at h

theorem invariant_init (cats : List String) : Invariant (init cats) := by
  intro c k
  simp [init, get_client_subscriptions]

end SubscriptionManager

namespace SubscriptionManager

theorem gcs_def (m : SubscriptionManager) (c : Nat) :
    m.get_client_subscriptions c = (m.client_subscriptions c).getD [] := by
  cases h : m.client_subscriptions c <;> simp [get_client_subscriptions, h]

theorem invariant_iff (m : SubscriptionManager) :
    Invariant m ↔ ∀ (c : Nat) (k : String),
      c ∈ m.subscriptions k ↔ k ∈ (m.client_subscriptions c).getD [] := by
  unfold Invariant
  simp only [gcs_def]

theorem subscribe_success_preserves (m : SubscriptionManager) (c : Nat) (k : String)
    (hw1 : ∀ k1, (m.subscriptions k1).Nodup)
    (hw2 : ∀ c1 cats1, m.client_subscriptions c1 = some cats1 → cats1.Nodup)
    (hinv : Invariant m)
    (havail : pyLower k ∈ m.available_categories)
    (hmem : pyLower k ∉ m.get_client_subscriptions c) :
    WF (subscribe m c k).1 ∧ Invariant (subscribe m c k).1 := by
  rw [invariant_iff] at hinv
  cases hentry : m.client_subscriptions c with
  | none =>
    simp only [subscribe, havail, not_true_eq_false, if_false, hentry, ite_false,
      List.not_mem_nil, if_neg, not_false_eq_true, ite_true]
    refine ⟨⟨?_, ?_⟩, ?_⟩
    · intro k1
      by_cases hk : k1 = pyLower k <;> simp [hk, List.Nodup.insert, hw1]
    · intro c1 cats1 h1
      by_cases hc : c1 = c <;> simp [hc] at h1
      · rw [← h1]; exact List.Nodup.insert List.nodup_nil
      · exact hw2 c1 cats1 h1
    · rw [invariant_iff]
      intro c1 k1
      by_cases hk : k1 = pyLower k <;> by_cases hc : c1 = c <;>
        simp [hk, hc, List.mem_insert_iff, hentry, hinv]
  | some cs =>
    have hmem2 : pyLower k ∉ cs := by
      rw [gcs_def, hentry] at hmem
      simpa using hmem
    simp only [subscribe, havail, not_true_eq_false, if_false, hentry, ite_false,
      hmem2, if_neg, not_false_eq_true, ite_true]
    refine ⟨⟨?_, ?_⟩, ?_⟩
    · intro k1
      by_cases hk : k1 = pyLower k <;> simp [hk, List.Nodup.insert, hw1]
    · intro c1 cats1 h1
      by_cases hc : c1 = c <;> simp [hc] at h1
      · rw [← h1]; exact List.Nodup.insert (hw2 c cs hentry)
      · exact hw2 c1 cats1 h1
    · rw [invariant_iff]
      intro c1 k1
      by_cases hk : k1 = pyLower k <;> by_cases hc : c1 = c <;>
        simp [hk, hc, List.mem_insert_iff, hentry, hinv]



theorem subscribe_fail_state_eq (m : SubscriptionManager) (c : Nat) (k : String)
    (hinv : Invariant m)
    (hfail : (subscribe m c k).2.1 = false) :
    (subscribe m c k).1 = m := by
  rw [invariant_iff] at hinv
  obtain ⟨avail, subs, entries⟩ := m
  have hinv' : ∀ (c1 : Nat) (k1 : String),
      c1 ∈ subs k1 ↔ k1 ∈ (entries c1).getD [] := hinv
  by_cases havail : pyLower k ∈ avail
  · cases hentry : entries c with
    | none =>
      simp [subscribe, havail, hentry] at hfail
    | some cs =>
      by_cases hmem : pyLower k ∈ cs
      · have hsubs : c ∈ subs (pyLower k) := by
          rw [hinv' c (pyLower k), hentry]
          simpa using hmem
        simp only [subscribe, havail, not_true_eq_false, if_false, hentry, hmem,
          ite_true, if_pos]
        simp only [SubscriptionManager.mk.injEq, true_and]
        constructor
        · funext k1
          by_cases hk : k1 = pyLower k
          · subst hk
            simp [List.insert_of_mem hsubs]
          · simp [hk]
        · funext c1
          by_cases hc : c1 = c
          · subst hc
            simp [hentry]
          · simp [hc]
      · simp [subscribe, havail, hentry, hmem] at hfail
  · simp [subscribe, havail]


theorem subscribe_preserves (m : SubscriptionManager) (c : Nat) (k : String)
    (hwf : WF m) (hinv : Invariant m) :
    WF (subscribe m c k).1 ∧ Invariant (subscribe m c k).1 := by
  by_cases havail : pyLower k ∈ m.available_categories
  · by_cases hmem : pyLower k ∈ m.get_client_subscriptions c
    · have hfail : (subscribe m c k).2.1 = false := by
        rw [gcs_def] at hmem
        cases hentry : m.client_subscriptions c with
        | none => rw [hentry] at hmem; simp at hmem
        | some cs =>
          rw [hentry] at hmem
          simp only [Option.getD_some] at hmem
          simp [subscribe, havail, hentry, hmem]
      rw [subscribe_fail_state_eq m c k hinv hfail]
      exact ⟨hwf, hinv⟩
    · exact subscribe_success_preserves m c k hwf.1 hwf.2 hinv havail hmem
  · have heq : (subscribe m c k).1 = m := by simp [subscribe, havail]
    rw [heq]
    exact ⟨hwf, hinv⟩

theorem unsubscribe_preserves (m : SubscriptionManager) (c : Nat) (k : String)
    (hwf : WF m) (hinv : Invariant m) :
    WF (unsubscribe m c k).1 ∧ Invariant (unsubscribe m c k).1 := by
  obtain ⟨hw1, hw2⟩ := hwf
  rw [invariant_iff] at hinv
  cases hentry : m.client_subscriptions c with
  | none =>
    have heq : (unsubscribe m c k).1 = m := by simp [unsubscribe, hentry]
    rw [heq]
    exact ⟨⟨hw1, hw2⟩, by rw [invariant_iff]; exact hinv⟩
  | some cs =>
    by_cases hmem : pyLower k ∈ cs
    · simp only [unsubscribe, hentry, hmem, not_true_eq_false, if_false, ite_true,
        if_neg, not_false_eq_true, ite_false]
      refine ⟨⟨?_, ?_⟩, ?_⟩
      · intro k1
        by_cases hk : k1 = pyLower k <;> simp [hk, List.Nodup.erase, hw1]
      · intro c1 cats1 h1
        by_cases hc : c1 = c <;> simp [hc] at h1
        · rw [← h1]; exact List.Nodup.erase _ (hw2 c cs hentry)
        · exact hw2 c1 cats1 h1
      · rw [invariant_iff]
        intro c1 k1
        by_cases hk : k1 = pyLower k <;> by_cases hc : c1 = c <;>
          simp [hk, hc, hentry, hinv,
            List.Nodup.mem_erase_iff (hw1 (pyLower k)),
            List.Nodup.mem_erase_iff (hw2 c cs hentry)]
    · have heq : (unsubscribe m c k).1 = m := by simp [unsubscribe, hentry, hmem]
      rw [heq]
      exact ⟨⟨hw1, hw2⟩, by rw [invariant_iff]; exact hinv⟩

theorem remove_client_preserves (m : SubscriptionManager) (c : Nat)
    (hwf : WF m) (hinv : Invariant m) :
    WF (remove_client m c) ∧ Invariant (remove_client m c) := by
  obtain ⟨hw1, hw2⟩ := hwf
  rw [invariant_iff] at hinv
  cases hentry : m.client_subscriptions c with
  | none =>
    have heq : remove_client m c = m := by simp [remove_client, hentry]
    rw [heq]
    exact ⟨⟨hw1, hw2⟩, by rw [invariant_iff]; exact hinv⟩
  | some cats =>
    simp only [remove_client, hentry]
    refine ⟨⟨?_, ?_⟩, ?_⟩
    · intro k1
      by_cases hk : k1 ∈ cats <;> simp [hk, List.Nodup.erase, hw1]
    · intro c1 cats1 h1
      by_cases hc : c1 = c <;> simp [hc] at h1
      exact hw2 c1 cats1 h1
    · rw [invariant_iff]
      intro c1 k1
      by_cases hk : k1 ∈ cats <;> by_cases hc : c1 = c <;>
        simp [hk, hc, hentry, hinv, List.Nodup.mem_erase_iff (hw1 k1)]

theorem reachable_wf_invariant (m : SubscriptionManager) (h : Reachable m) :
    WF m ∧ Invariant m := by
  induction h with
  | init cats => exact ⟨wF_init cats, invariant_init cats⟩
  | subscribe m c k _ ih => exact subscribe_preserves m c k ih.1 ih.2
  | unsubscribe m c k _ ih => exact unsubscribe_preserves m c k ih.1 ih.2
  | remove_client m c _ ih => exact remove_client_preserves m c ih.1 ih.2

end SubscriptionManager

namespace SubscriptionManager

theorem remove_client_entry_none (m : SubscriptionManager) (c c1 : Nat)
    (h : m.client_subscriptions c1 = none) :
    (remove_client m c).client_subscriptions c1 = none := by
  cases hentry : m.client_subscriptions c with
  | none => simpa [remove_client, hentry] using h
  | some cats =>
    by_cases hc : c1 = c <;> simp [remove_client, hentry, hc, h]

theorem remove_client_not_subscribed (m : SubscriptionManager) (c c1 : Nat)
    (k : String) (h : c1 ∉ m.subscriptions k) :
    c1 ∉ (remove_client m c).subscriptions k := by
  cases hentry : m.client_subscriptions c with
  | none => simpa [remove_client, hentry] using h
  | some cats =>
    by_cases hk : k ∈ cats <;> simp [remove_client, hentry, hk, h]
    intro hmem
    exact h (List.mem_of_mem_erase hmem)

theorem remove_client_removes (m : SubscriptionManager) (c : Nat)
    (hwf : WF m) (hinv : Invariant m) :
    (remove_client m c).client_subscriptions c = none ∧
    ∀ k, c ∉ (remove_client m c).subscriptions k := by
  obtain ⟨hw1, _⟩ := hwf
  rw [invariant_iff] at hinv
  cases hentry : m.client_subscriptions c with
  | none =>
    refine ⟨by simp [remove_client, hentry], ?_⟩
    intro k hmem
    simp only [remove_client, hentry] at hmem
    rw [hinv, hentry] at hmem
    simp at hmem
  | some cats =>
    refine ⟨by simp [remove_client, hentry], ?_⟩
    intro k
    by_cases hk : k ∈ cats <;> simp [remove_client, hentry, hk]
    · exact fun h => (((hw1 k).mem_erase_iff).1 h).1 rfl
    · intro hmem
      rw [hinv, hentry] at hmem
      simp at hmem
      exact hk hmem

end SubscriptionManager

namespace NewsServer

theorem fold_remove_absent (L : List Nat) (acc : ServerState) (c : Nat)
    (h1 : acc.subscription_manager.client_subscriptions c = none)
    (h2 : ∀ k, c ∉ acc.subscription_manager.subscriptions k)
    (h3 : c ∉ acc.clients) :
    (L.foldl remove_failed_client acc).subscription_manager.client_subscriptions c = none ∧
    (∀ k, c ∉ (L.foldl remove_failed_client acc).subscription_manager.subscriptions k) ∧
    c ∉ (L.foldl remove_failed_client acc).clients := by
  induction L generalizing acc with
  | nil => exact ⟨h1, h2, h3⟩
  | cons a t ih =>
    simp only [List.foldl_cons]
    apply ih
    · exact SubscriptionManager.remove_client_entry_none _ a c h1
    · intro k
      exact SubscriptionManager.remove_client_not_subscribed _ a c k (h2 k)
    · intro hmem
      exact h3 (List.mem_of_mem_erase hmem)

theorem fold_remove_removes (L : List Nat) (acc : ServerState) (c : Nat)
    (hwf : SubscriptionManager.WF acc.subscription_manager)
    (hinv : SubscriptionManager.Invariant acc.subscription_manager)
    (hcl : acc.clients.Nodup)
    (hc : c ∈ L) :
    (L.foldl remove_failed_client acc).subscription_manager.client_subscriptions c = none ∧
    (∀ k, c ∉ (L.foldl remove_failed_client acc).subscription_manager.subscriptions k) ∧
    c ∉ (L.foldl remove_failed_client acc).clients := by
  induction L generalizing acc with
  | nil => simp at hc
  | cons a t ih =>
    have hpres := SubscriptionManager.remove_client_preserves
      acc.subscription_manager a hwf hinv
    simp only [List.foldl_cons]
    by_cases hct : c ∈ t
    · exact ih (remove_failed_client acc a) hpres.1 hpres.2 (hcl.erase a) hct
    · have hca : c = a := by
        rcases List.mem_cons.1 hc with h | h
        · exact h
        · exact absurd h hct
      subst hca
      have hrem := SubscriptionManager.remove_client_removes
        acc.subscription_manager c hwf hinv
      apply fold_remove_absent
      · exact hrem.1
      · exact hrem.2
      · exact fun h => ((hcl.mem_erase_iff).1 h).1 rfl

end NewsServer

/-! ## Claim theorems -/

/-- C1 (refuted): ids are NOT distinct across intervening deletions.
`add_news` computes `id = len(news_list) + 1`, so after appending the item
with id 1, deleting it, and appending again, the second append is also
assigned id 1 — the id is reused. -/
theorem news_id_reused_after_deletion :
    ((NewsStorage.mk []).add_news (Json.str "T1") (Json.str "L1") "tecnologia" 0).2.id = 1 ∧
    ((((NewsStorage.mk []).add_news (Json.str "T1") (Json.str "L1") "tecnologia" 0).1.remove_news_by_ids
        [1]).1.add_news (Json.str "T2") (Json.str "L2") "tecnologia" 1).2.id = 1 :=
  ⟨rfl, rfl⟩

/-- C3 (refuted): `remove_news_by_ids` rebuilds `removed_ids` by scanning
the post-filter list, which can no longer contain any requested id, so a
present-and-removed id is still reported as not found: removing id 1 from
a store that holds exactly the item with id 1 removes it (count 1, store
empty) yet returns `[1]` as the ids not found. -/
theorem remove_reports_removed_id_as_not_found :
    (NewsStorage.mk [News.mk 1 (Json.str "T") (Json.str "L") "tecnologia" 0]).remove_news_by_ids [1]
      = (NewsStorage.mk [], 1, [1]) ∧
    1 ∈ (NewsStorage.mk [News.mk 1 (Json.str "T") (Json.str "L") "tecnologia" 0]).news_list.map News.id :=
  ⟨rfl, by decide⟩

/-- C8: decoding the frame produced by `Message.create(t, fields)` yields a
frame whose type tag is `t` and whose data field mapping is `fields`, for
every type tag and every field mapping. -/
theorem codec_round_trip (t : String) (fields : List (String × Json)) :
    Json.pyGet (Message.parse (some (Message.create t (Json.obj fields)))) "type"
      = Except.ok (some (Json.str t)) ∧
    Json.pyGet (Message.parse (some (Message.create t (Json.obj fields)))) "data"
      = Except.ok (some (Json.obj fields)) := by
  cases fields with
  | nil => exact ⟨rfl, rfl⟩
  | cons p rest => exact ⟨rfl, rfl⟩

/-- C9: an append onto a store already holding at least
`MAX_NEWS_HISTORY` items leaves exactly `MAX_NEWS_HISTORY` items, namely
the most recent suffix of the appended sequence. -/
theorem add_news_cap_eviction (s : NewsStorage) (title lead : Json)
    (category : String) (now : Nat)
    (hfull : MAX_NEWS_HISTORY ≤ s.news_list.length) :
    (s.add_news title lead category now).1.news_list.length = MAX_NEWS_HISTORY ∧
    (s.add_news title lead category now).1.news_list
      = (s.news_list ++ [(s.add_news title lead category now).2]).drop
          (s.news_list.length + 1 - MAX_NEWS_HISTORY) := by
  have hmax : MAX_NEWS_HISTORY = 100 := rfl
  unfold NewsStorage.add_news pySliceLast
  simp only [List.length_append, List.length_cons, List.length_nil]
  rw [if_pos (by omega), if_neg (by omega)]
  constructor
  · simp only [List.length_drop, List.length_append, List.length_cons, List.length_nil]
    omega
  · simp only [List.length_append, List.length_cons, List.length_nil]

/-- C9 witness: a concrete store with exactly 100 items, evicting on the
next append. -/
theorem add_news_cap_eviction_witness :
    MAX_NEWS_HISTORY ≤ ((List.range 100).map (fun i =>
      News.mk (i + 1) Json.null Json.null "todas" 0)).length ∧
    ((NewsStorage.mk ((List.range 100).map (fun i =>
        News.mk (i + 1) Json.null Json.null "todas" 0))).add_news
          Json.null Json.null "todas" 0).1.news_list.length = MAX_NEWS_HISTORY :=
  ⟨by simp [MAX_NEWS_HISTORY],
   (add_news_cap_eviction _ Json.null Json.null "todas" 0 (by simp [MAX_NEWS_HISTORY])).1⟩

/-- C4: in every reachable registry state — i.e. after any sequence of
completed subscribe, unsubscribe and remove-client operations — a
connection `c` is in the subscriber set of a (case-normalized) category
`k` exactly when `k` is among the categories recorded for `c`. -/
theorem registry_bidirectional_index_invariant (m : SubscriptionManager)
    (hm : SubscriptionManager.Reachable m) (c : Nat) (k : String)
    (hk : pyLower k = k) :
    c ∈ m.get_subscribers k ↔ k ∈ m.get_client_subscriptions c := by
  have hinv := (SubscriptionManager.reachable_wf_invariant m hm).2
  have h := hinv c (pyLower k)
  rw [hk] at h
  simpa [SubscriptionManager.get_subscribers, hk] using h

/-- C4 witness: a registry with connection 5 subscribed to "tecnologia". -/
theorem registry_bidirectional_index_invariant_witness :
    5 ∈ (((SubscriptionManager.init ["tecnologia"]).subscribe 5 "tecnologia").1.get_subscribers
        "tecnologia")
      ↔ "tecnologia" ∈ (((SubscriptionManager.init ["tecnologia"]).subscribe 5
        "tecnologia").1.get_client_subscriptions 5) :=
  registry_bidirectional_index_invariant _
    (SubscriptionManager.Reachable.subscribe _ 5 "tecnologia"
      (SubscriptionManager.Reachable.init ["tecnologia"])) 5 "tecnologia" (by decide)

/-- C10: whenever `subscribe` fails — unknown category or already
subscribed — the registry state after the call is identical to the state
before it (in reachable states). -/
theorem subscribe_failure_leaves_registry_unchanged (m : SubscriptionManager)
    (c : Nat) (k : String) (hm : SubscriptionManager.Reachable m)
    (hfail : (m.subscribe c k).2.1 = false) :
    (m.subscribe c k).1 = m :=
  SubscriptionManager.subscribe_fail_state_eq m c k
    (SubscriptionManager.reachable_wf_invariant m hm).2 hfail

/-- C10 witness: connection 5 is already subscribed to "tecnologia"; the
repeated subscribe fails and leaves the registry unchanged. -/
theorem subscribe_failure_leaves_registry_unchanged_witness :
    ((((SubscriptionManager.init ["tecnologia"]).subscribe 5 "tecnologia").1.subscribe
        5 "tecnologia").1)
      = ((SubscriptionManager.init ["tecnologia"]).subscribe 5 "tecnologia").1 :=
  subscribe_failure_leaves_registry_unchanged _ 5 "tecnologia"
    (SubscriptionManager.Reachable.subscribe _ 5 "tecnologia"
      (SubscriptionManager.Reachable.init ["tecnologia"])) (by decide)

/-- C2 (refuted): `_process_message` has no branch for the History type
tag, so a History frame falls through to the unrecognized-command branch:
the server replies with an Error frame (never a NewsHistory frame) and the
server state — including the news store — is completely unchanged. -/
theorem history_request_gets_unrecognized_error (dead : List Nat)
    (st : ServerState) (client : Nat) (data : Json) (now : Nat) :
    NewsServer.process_message dead st client
      (some (Json.obj [("type", Json.str MessageType.HISTORY), ("data", data)])) now
      = Except.ok (st, sendTo dead client
          (Message.error "Comando \x27HISTORICO\x27 não reconhecido")) := by
  simp [NewsServer.process_message, Message.parse, Json.pyGet, Json.pyGetD,
    Json.lookupField, Json.pyEqStr, Json.pyShowOpt, Json.pyShow,
    MessageType.HISTORY, MessageType.SUBSCRIBE, MessageType.UNSUBSCRIBE,
    MessageType.LIST_CATEGORIES, MessageType.PUBLISH, MessageType.DISCONNECT,
    bind, Except.bind, pure, Except.pure]

/-- C5 (refuted as stated): a record that is valid JSON but not an object
— here the JSON array `[]` — is NOT a well-formed protocol message, yet
`Message.parse` returns it unchanged rather than an Error-kind frame (it
has no type tag at all: `.get` faults on it), and dispatching it faults
`_process_message`, which tears the connection down instead of keeping it
open. -/
theorem json_array_record_faults_and_closes_connection :
    Message.parse (some (Json.arr [])) = Json.arr [] ∧
    Json.pyGet (Message.parse (some (Json.arr []))) "type"
      = Except.error "AttributeError: no attribute get" ∧
    (NewsServer.handle_one [] (ServerState.mk (SubscriptionManager.init [])
        (NewsStorage.mk []) [] 0) 3 (some (Json.arr [])) 0).2.2 = false ∧
    (NewsServer.handle_one [] (ServerState.mk (SubscriptionManager.init [])
        (NewsStorage.mk []) [] 0) 3 (some (Json.arr [])) 0).2.1
      = [Event.close 3] :=
  ⟨rfl, rfl, rfl, rfl⟩

/-- C5 (amended): a record that fails JSON decoding altogether decodes to
the uniform Error-kind frame with the diagnostic "Formato inválido"; the
server then dispatches that frame, finds no matching command, replies to
the sender with an Error frame, and the connection stays open with the
server state unchanged. -/
theorem undecodable_record_error_reply_connection_open (dead : List Nat)
    (st : ServerState) (client : Nat) (now : Nat) (hc : client ∉ dead) :
    Message.parse none = Message.error "Formato inválido" ∧
    NewsServer.handle_one dead st client none now
      = (st, [Event.send client (Message.error "Comando \x27ERRO\x27 não reconhecido")],
         true) := by
  refine ⟨rfl, ?_⟩
  simp [NewsServer.handle_one, NewsServer.process_message, Message.parse,
    Json.pyGet, Json.pyGetD, Json.lookupField, Json.pyEqStr, Json.pyShowOpt,
    Json.pyShow, sendTo, hc, MessageType.ERROR,
    MessageType.SUBSCRIBE, MessageType.UNSUBSCRIBE, MessageType.LIST_CATEGORIES,
    MessageType.PUBLISH, MessageType.DISCONNECT,
    bind, Except.bind, pure, Except.pure]

/-- C5 amended witness: an undecodable record on a concrete server state. -/
theorem undecodable_record_error_reply_connection_open_witness :
    Message.parse none = Message.error "Formato inválido" ∧
    NewsServer.handle_one [] (ServerState.mk (SubscriptionManager.init [])
        (NewsStorage.mk []) [] 0) 3 none 0
      = (ServerState.mk (SubscriptionManager.init []) (NewsStorage.mk []) [] 0,
         [Event.send 3 (Message.error "Comando \x27ERRO\x27 não reconhecido")],
         true) :=
  undecodable_record_error_reply_connection_open [] _ 3 0 (by decide)

/-- C7: during one broadcast, every connection in the subscriber snapshot
gets its own delivery attempt — a successful send of the NewsUpdate frame
when its transport is alive, a failed attempt when it is dead — so no
individual failure suppresses the attempts to the others; and every
failed connection is afterwards removed from both registry maps and from
the live-connection set. -/
theorem broadcast_partial_failure_isolation (dead : List Nat) (st : ServerState)
    (title summary : Json) (category : String)
    (hm : SubscriptionManager.Reachable st.subscription_manager)
    (hcl : st.clients.Nodup) :
    (∀ c ∈ st.subscription_manager.get_subscribers category,
      (if c ∈ dead then Event.sendFailed c
       else Event.send c (Message.news_update title summary category))
        ∈ (NewsServer.broadcast_news dead st title summary category).2) ∧
    (∀ c ∈ st.subscription_manager.get_subscribers category, c ∈ dead →
      (NewsServer.broadcast_news dead st title summary
          category).1.subscription_manager.client_subscriptions c = none ∧
      (∀ k, c ∉ (NewsServer.broadcast_news dead st title summary
          category).1.subscription_manager.subscriptions k) ∧
      c ∉ (NewsServer.broadcast_news dead st title summary category).1.clients) := by
  obtain ⟨hwf, hinv⟩ := SubscriptionManager.reachable_wf_invariant _ hm
  constructor
  · intro c hc
    simp only [NewsServer.broadcast_news]
    exact List.mem_map_of_mem _ hc
  · intro c hc hd
    simp only [NewsServer.broadcast_news]
    apply NewsServer.fold_remove_removes _ st c hwf hinv hcl
    simp only [List.mem_filter, decide_eq_true_eq]
    exact ⟨hc, hd⟩

/-- C7 witness: connections 1 and 2 subscribed to "tecnologia",
connection 1 dead at broadcast time. -/
theorem broadcast_partial_failure_isolation_witness :
    (∀ c ∈ (ServerState.mk ((((SubscriptionManager.init
          ["tecnologia"]).subscribe 1 "tecnologia").1.subscribe 2 "tecnologia").1)
          (NewsStorage.mk []) [0, 1, 2] 0).subscription_manager.get_subscribers "tecnologia",
      (if c ∈ [1] then Event.sendFailed c
       else Event.send c (Message.news_update (Json.str "T") (Json.str "L") "tecnologia"))
        ∈ (NewsServer.broadcast_news [1] (ServerState.mk ((((SubscriptionManager.init
            ["tecnologia"]).subscribe 1 "tecnologia").1.subscribe 2 "tecnologia").1)
            (NewsStorage.mk []) [0, 1, 2] 0) (Json.str "T") (Json.str "L") "tecnologia").2) ∧
    (∀ c ∈ (ServerState.mk ((((SubscriptionManager.init
          ["tecnologia"]).subscribe 1 "tecnologia").1.subscribe 2 "tecnologia").1)
          (NewsStorage.mk []) [0, 1, 2] 0).subscription_manager.get_subscribers "tecnologia",
      c ∈ [1] →
      (NewsServer.broadcast_news [1] (ServerState.mk ((((SubscriptionManager.init
          ["tecnologia"]).subscribe 1 "tecnologia").1.subscribe 2 "tecnologia").1)
          (NewsStorage.mk []) [0, 1, 2] 0) (Json.str "T") (Json.str "L")
          "tecnologia").1.subscription_manager.client_subscriptions c = none ∧
      (∀ k, c ∉ (NewsServer.broadcast_news [1] (ServerState.mk ((((SubscriptionManager.init
          ["tecnologia"]).subscribe 1 "tecnologia").1.subscribe 2 "tecnologia").1)
          (NewsStorage.mk []) [0, 1, 2] 0) (Json.str "T") (Json.str "L")
          "tecnologia").1.subscription_manager.subscriptions k) ∧
      c ∉ (NewsServer.broadcast_news [1] (ServerState.mk ((((SubscriptionManager.init
          ["tecnologia"]).subscribe 1 "tecnologia").1.subscribe 2 "tecnologia").1)
          (NewsStorage.mk []) [0, 1, 2] 0) (Json.str "T") (Json.str "L")
          "tecnologia").1.clients) :=
  broadcast_partial_failure_isolation [1] _ (Json.str "T") (Json.str "L") "tecnologia"
    (SubscriptionManager.Reachable.subscribe _ 2 "tecnologia"
      (SubscriptionManager.Reachable.subscribe _ 1 "tecnologia"
        (SubscriptionManager.Reachable.init ["tecnologia"]))) (by decide)

/-- C6: a Publish of a valid category first runs the fan-out pass — in
which every live subscriber from the snapshot receives its own NewsUpdate
send, and every event is a NewsUpdate attempt, never an acknowledgment —
and only after that list is exhausted sends the single Success frame,
carrying the assigned id, to the publisher alone. -/
theorem publish_broadcasts_before_success_ack (dead : List Nat) (st : ServerState)
    (publisher : Nat) (title summary : Json) (k : String) (now : Nat)
    (havail : pyLower k ∈ st.subscription_manager.available_categories) :
    ∃ st2 bEvs,
      NewsServer.process_message dead st publisher
        (some (Json.obj [("type", Json.str MessageType.PUBLISH),
          ("data", Json.obj [("title", title), ("summary", summary),
            ("category", Json.str k)])])) now
        = Except.ok (st2, bEvs ++ sendTo dead publisher (Message.success
            ("Notícia publicada com sucesso (ID: "
              ++ toString ((st.news_storage.add_news title summary (pyLower k)
                  now).2.id) ++ ")"))) ∧
      (st.news_storage.add_news title summary (pyLower k) now).2.id
        = st.news_storage.news_list.length + 1 ∧
      (∀ c ∈ st.subscription_manager.get_subscribers (pyLower k), c ∉ dead →
        Event.send c (Message.news_update title summary (pyLower k)) ∈ bEvs) ∧
      (∀ e ∈ bEvs, ∀ c frame, e = Event.send c frame →
        frame = Message.news_update title summary (pyLower k)) := by
  have hmem : pyLower k ∈ st.subscription_manager.get_available_categories :=
    (SubscriptionManager.mem_get_available_categories _ _).2 havail
  refine ⟨(NewsServer.broadcast_news dead { st with
      news_storage := (st.news_storage.add_news title summary (pyLower k) now).1
      news_published := st.news_published + 1 } title summary (pyLower k)).1,
    (NewsServer.broadcast_news dead { st with
      news_storage := (st.news_storage.add_news title summary (pyLower k) now).1
      news_published := st.news_published + 1 } title summary (pyLower k)).2,
    ?_, rfl, ?_, ?_⟩
  · simp [NewsServer.process_message, Message.parse, Json.pyGet, Json.pyGetD,
      Json.lookupField, Json.pyEqStr, Json.lowerStr, Json.pyShowOpt, Json.pyShow,
      hmem, MessageType.PUBLISH, MessageType.SUBSCRIBE, MessageType.UNSUBSCRIBE,
      MessageType.LIST_CATEGORIES, MessageType.DISCONNECT,
      bind, Except.bind, pure, Except.pure]
  · intro c hc hcd
    simp only [NewsServer.broadcast_news]
    have hmap := List.mem_map_of_mem (fun c1 =>
      if c1 ∈ dead then Event.sendFailed c1
      else Event.send c1 (Message.news_update title summary (pyLower k))) hc
    simpa [hcd] using hmap
  · intro e he c frame hef
    simp only [NewsServer.broadcast_news, List.mem_map] at he
    obtain ⟨c1, hc1, he1⟩ := he
    by_cases hcd : c1 ∈ dead
    · rw [← he1] at hef
      simp [hcd] at hef
    · rw [← he1] at hef
      simp only [hcd, if_neg, ite_false, not_false_eq_true, ite_true,
        Event.send.injEq] at hef
      exact hef.2.symm

/-- C6 witness: publisher 0 publishes to "tecnologia", connection 5
subscribed, no transport failures. -/
theorem publish_broadcasts_before_success_ack_witness :
    ∃ st2 bEvs,
      NewsServer.process_message [] (ServerState.mk
          (((SubscriptionManager.init ["tecnologia"]).subscribe 5 "tecnologia").1)
          (NewsStorage.mk []) [0, 5] 0) 0
        (some (Json.obj [("type", Json.str MessageType.PUBLISH),
          ("data", Json.obj [("title", Json.str "T"), ("summary", Json.str "L"),
            ("category", Json.str "tecnologia")])])) 7
        = Except.ok (st2, bEvs ++ sendTo [] 0 (Message.success
            ("Notícia publicada com sucesso (ID: "
              ++ toString (((NewsStorage.mk []).add_news (Json.str "T") (Json.str "L")
                  (pyLower "tecnologia") 7).2.id) ++ ")"))) ∧
      ((NewsStorage.mk []).add_news (Json.str "T") (Json.str "L")
          (pyLower "tecnologia") 7).2.id
        = (NewsStorage.mk []).news_list.length + 1 ∧
      (∀ c ∈ (((SubscriptionManager.init ["tecnologia"]).subscribe 5
          "tecnologia").1).get_subscribers (pyLower "tecnologia"), c ∉ ([] : List Nat) →
        Event.send c (Message.news_update (Json.str "T") (Json.str "L")
          (pyLower "tecnologia")) ∈ bEvs) ∧
      (∀ e ∈ bEvs, ∀ c frame, e = Event.send c frame →
        frame = Message.news_update (Json.str "T") (Json.str "L")
          (pyLower "tecnologia")) :=
  publish_broadcasts_before_success_ack [] _ 0 (Json.str "T") (Json.str "L")
    "tecnologia" 7 (by decide)
